import Mathlib

/-! Surface Book 2 button array driver.

A shallow embedding of `drivers/platform/x86/surfacebook2_button.c`.

The driver runs inside the kernel and talks to four collaborators whose code is
not part of the file: the device-managed allocator, the ACPI `_DSM` evaluator,
the platform-device ("gpio-keys") service and the ACPI GPIO naming registry.
Their answers are taken as parameters (`CreateEnv`, `Env`); the calls the driver
makes to them are recorded, in order, in the `trace` of the `World`.

A result of `none` stands for undefined behaviour of the C code: a null pointer
dereference or an access outside an array.

The memory handed out by the allocator is not tracked, only whether an
allocation succeeds. A pointer to a platform device is either a device handed
out by the service or an integer code wrapped by `ERR_PTR`; `IS_ERR` recognises
the wrapped codes from `-MAX_ERRNO` to `-1` only, so a code outside that range
is a pointer like any other.
-/

namespace Surfacebook2Button

/-! ## Constants -/

/-- The bytes of the string "VGBI", without the terminating NUL. -/
def SURFACEBOOK2_BUTTON_OBJ_NAME : List Nat := [0x56, 0x47, 0x42, 0x49]

def MAX_NBUTTONS : Nat := 3

def BUTTON_TYPES : Nat := 2

def SURFACEBOOK2_BUTTON_DSM_RET_ID : Nat := 0x05

/-- Modelled from the spec: the errno behind `ResourceExhausted`; the errno
header is not part of the source file. The kernel's value is 12. -/
def ENOMEM : Int := 12

/-- Modelled from the spec: the errno behind `NotThisDevice`, `Absent` and
`NoMatchingButtons`; the errno header is not part of the source file. The
kernel's value is 19. -/
def ENODEV : Int := 19

/-- Modelled from the spec: the errno with which the identity query reports
`QueryUnavailable` and `UnexpectedResultType`; the errno header is not part of
the source file. The kernel's value is 22. -/
def EINVAL : Int := 22

/-- Modelled from the spec: the success code returned by add and remove; the
ACPI header defining it is not part of the source file. Its value is 0. -/
def AE_OK : Int := 0

/-- Modelled from the spec: the largest errno an error pointer can wrap, the
bound behind the spec's "explicit result type" for "sentinel codes from the host
framework"; the error-pointer header is not part of the source file. Its value
is 4095. -/
def MAX_ERRNO : Int := 4095

/-- Modelled from the spec: the tag of an integer result of the identity query
("tagged result: integer | other | none"); the ACPI header defining it is not
part of the source file. Its value is 1. -/
def ACPI_TYPE_INTEGER : Nat := 0x01

/-- Modelled from the spec: the event classification of a key; the input event
header is not part of the source file. Its value is 1. -/
def EV_KEY : Nat := 0x01

/-- Modelled from the spec: event code of the volume-down key (header not part
of the source file). -/
def KEY_VOLUMEDOWN : Nat := 114

/-- Modelled from the spec: event code of the volume-up key (header not part of
the source file). -/
def KEY_VOLUMEUP : Nat := 115

/-- Modelled from the spec: event code of the power key (header not part of the
source file). -/
def KEY_POWER : Nat := 116

/-! ## Data -/

/-- One entry of the button table. `name = none` is the C null pointer, which
marks the sentinel entry. -/
structure surfacebook2_button_info where
  name : Option String
  acpi_index : Nat
  gpio : Nat
  event_type : Nat
  event_code : Nat
  autorepeat : Bool
  wakeup : Bool
  active_low : Bool
deriving DecidableEq

/-- The zero-initialised entry `{ }` that terminates a button table. -/
def sentinel_info : surfacebook2_button_info :=
  ⟨none, 0, 0, 0, 0, false, false, false⟩

/-- The driver's button table, sentinel included. -/
def surfacebook2_button_arr : List surfacebook2_button_info :=
  [ ⟨some "power", 0, 0x01DE, EV_KEY, KEY_POWER, false, true, false⟩,
    ⟨some "voldown", 2, 0x019E, EV_KEY, KEY_VOLUMEDOWN, true, false, true⟩,
    ⟨some "volup", 4, 0x019F, EV_KEY, KEY_VOLUMEUP, true, false, true⟩,
    sentinel_info ]

/-- The fields of the service's per-button record that the driver writes. -/
structure gpio_keys_button where
  type : Nat
  code : Nat
  gpio : Nat
  active_low : Bool
  desc : Option String
  wakeup : Bool
  debounce_interval : Nat
deriving DecidableEq

/-- A button record as the zeroing allocator leaves it. -/
def zero_button : gpio_keys_button := ⟨0, 0, 0, false, none, false, 0⟩

/-- The fields of the service's group configuration that the driver writes.
`buttons` is the whole array the pointer refers to; the service reads its first
`nbuttons` records. -/
structure gpio_keys_platform_data where
  buttons : List gpio_keys_button
  nbuttons : Nat
  rep : Bool
deriving DecidableEq

/-- A non-null pointer to a platform device, as returned by
`surfacebook2_button_device_create`: a device handed out by the service, or the
pointer `ERR_PTR(error)` wrapping an integer code. -/
inductive pdev_result where
  | ptr (pd : Nat)
  | err_ptr (error : Int)
deriving DecidableEq

/-- The driver's private data: one child pointer per group, `none` being the
null pointer. -/
structure surfacebook2_button_data where
  children : List (Option pdev_result)
deriving DecidableEq

/-- A call made to a collaborator. -/
inductive Event where
  | acpi_evaluate_dsm
  | platform_device_alloc (pd : Option Nat)
  | platform_device_add_data (pd : Nat) (pdata : gpio_keys_platform_data) (ret : Int)
  | platform_device_add (pd : Nat) (ret : Int)
  | platform_device_put (pd : Nat)
  | platform_device_unregister (pd : pdev_result)
  | acpi_dev_add_driver_gpios
deriving DecidableEq

/-- The state the driver acts on: the private data attached to the ACPI device
(`none` when nothing is attached), the next device the service will hand out,
the devices currently registered with their configuration, and the calls made
so far. -/
structure World where
  drvdata : Option surfacebook2_button_data
  next_pd : Nat
  registered : List (Nat × gpio_keys_platform_data)
  trace : List Event
deriving DecidableEq

/-- The result of the `_DSM` evaluation: a tagged object. -/
structure acpi_object where
  type : Nat
  integer_value : Nat
deriving DecidableEq

/-- The collaborators' answers during one call of
`surfacebook2_button_device_create`: whether `devm_kzalloc` and
`platform_device_alloc` return memory, and the codes returned by
`platform_device_add_data` and `platform_device_add`. -/
structure CreateEnv where
  kzalloc_ok : Bool
  pdev_alloc_ok : Bool
  add_data_ret : Int
  add_ret : Int
deriving DecidableEq

/-- The collaborators' answers during one call of `surfacebook2_button_add`:
the bytes of the device's bus identifier (up to its NUL), the result of the
`_DSM` evaluation (`none` is the null pointer), whether the private data can be
allocated, and the answers for the group built at loop index `i`. -/
structure Env where
  bid : List Nat
  dsm : Option acpi_object
  priv_alloc_ok : Bool
  create : Nat → CreateEnv

/-! ## Library routines -/

/-- Modelled from the spec: the C string comparison over at most `count` bytes
used for "the node's base identifier string matches a fixed expected prefix";
the string library is not part of the source file. A string is the list of its
bytes before the NUL, so reading at its end yields 0. -/
def strncmp : List Nat → List Nat → Nat → Int
  | _, _, 0 => 0
  | cs, ct, count + 1 =>
    let c1 := cs.headD 0
    let c2 := ct.headD 0
    if c1 ≠ c2 then (if c1 < c2 then -1 else 1)
    else if c1 = 0 then 0
    else strncmp cs.tail ct.tail count

/-- Modelled from the spec: the C string length, the number of bytes before the
first NUL; the string library is not part of the source file. -/
def strlen (s : List Nat) : Nat := (s.takeWhile (fun c => c != 0)).length

/-- Conversion of a C `int` to `u64`. -/
def u64_of_int (x : Int) : Nat := (x % (2 ^ 64 : Int)).toNat

/-! ## The service -/

def log (e : Event) (w : World) : World :=
  { w with trace := w.trace ++ [e] }

/-- The service is asked to release the device a pointer refers to: the call is
recorded and that device is no longer registered. -/
def platform_device_unregister (pd : pdev_result) (w : World) : World :=
  { w with registered := w.registered.filter (fun d => pdev_result.ptr d.1 != pd),
           trace := w.trace ++ [Event.platform_device_unregister pd] }

/-- Modelled from the spec: the kernel's test for an error pointer, by which
add tells a group "Error" from a "ChildHandle"; the error-pointer header is not
part of the source file. A pointer is an error pointer exactly when it wraps a
code from `-MAX_ERRNO` to `-1`; a device never is one. -/
def IS_ERR (pd : pdev_result) : Bool :=
  match pd with
  | .ptr _ => false
  | .err_ptr error => decide (-MAX_ERRNO ≤ error ∧ error < 0)

/-- Modelled from the spec: the code an error pointer wraps; the error-pointer
header is not part of the source file. Add applies it to error pointers only;
on a device it yields the device's address. -/
def PTR_ERR (pd : pdev_result) : Int :=
  match pd with
  | .ptr pd => pd
  | .err_ptr error => error

/-! ## The driver -/

/-- The loop of `surfacebook2_button_remove` at index `i`, with `n` iterations
left. -/
def remove_loop (priv : surfacebook2_button_data) : Nat → Nat → World → Option World
  | 0, _, w => some w
  | n + 1, i, w =>
    match priv.children[i]? with
    | none => none
    | some (some pd) => remove_loop priv n (i + 1) (platform_device_unregister pd w)
    | some none => remove_loop priv n (i + 1) w

def surfacebook2_button_remove (w : World) : Option (Int × World) :=
  match w.drvdata with
  | none => none
  | some priv =>
    match remove_loop priv BUTTON_TYPES 0 w with
    | none => none
    | some w1 => some (AE_OK, w1)

/-- The loop of `surfacebook2_button_device_create` over the table: `gpio_keys`
is the array of `MAX_NBUTTONS` records being filled and `n_buttons` the number
filled so far. Running off the table before a sentinel, or writing past the
array, is undefined. -/
def fill_buttons (autorepeat : Bool) :
    List surfacebook2_button_info → List gpio_keys_button → Nat →
      Option (List gpio_keys_button × Nat)
  | [], _, _ => none
  | info :: rest, gpio_keys, n_buttons =>
    match info.name with
    | none => some (gpio_keys, n_buttons)
    | some _ =>
      if info.autorepeat != autorepeat then
        fill_buttons autorepeat rest gpio_keys n_buttons
      else if n_buttons < gpio_keys.length then
        fill_buttons autorepeat rest
          (gpio_keys.set n_buttons
            { type := info.event_type
              code := info.event_code
              gpio := info.gpio
              active_low := info.active_low
              desc := info.name
              wakeup := info.wakeup
              debounce_interval := 1 })
          (n_buttons + 1)
      else none

def surfacebook2_button_device_create (r : CreateEnv)
    (button_info : List surfacebook2_button_info) (autorepeat : Bool) (w : World) :
    Option (pdev_result × World) :=
  if r.kzalloc_ok = false then
    some (.err_ptr (-ENOMEM), w)
  else
    match fill_buttons autorepeat button_info (List.replicate MAX_NBUTTONS zero_button) 0 with
    | none => none
    | some (gpio_keys, n_buttons) =>
      if n_buttons = 0 then
        some (.err_ptr (-ENODEV), w)
      else
        let gpio_keys_pdata : gpio_keys_platform_data :=
          { buttons := gpio_keys, nbuttons := n_buttons, rep := autorepeat }
        if r.pdev_alloc_ok = false then
          some (.err_ptr (-ENOMEM), log (.platform_device_alloc none) w)
        else
          let pd := w.next_pd
          let w1 := log (.platform_device_alloc (some pd)) { w with next_pd := w.next_pd + 1 }
          let w2 := log (.platform_device_add_data pd gpio_keys_pdata r.add_data_ret) w1
          if r.add_data_ret ≠ 0 then
            some (.err_ptr r.add_data_ret, log (.platform_device_put pd) w2)
          else
            let w3 := log (.platform_device_add pd r.add_ret) w2
            if r.add_ret ≠ 0 then
              some (.err_ptr r.add_ret, log (.platform_device_put pd) w3)
            else
              some (.ptr pd, { w3 with registered := w3.registered ++ [(pd, gpio_keys_pdata)] })

def surfacebook2_button_get_id (env : Env) (w : World) : Nat × World :=
  let w1 := log .acpi_evaluate_dsm w
  match env.dsm with
  | none => (u64_of_int (-EINVAL), w1)
  | some obj =>
    if obj.type ≠ ACPI_TYPE_INTEGER then (u64_of_int (-EINVAL), w1)
    else (obj.integer_value % 2 ^ 64, w1)

/-- The assignment `priv->children[i] = pd`. The pointer wrapping the code 0 is
the null pointer. -/
def store_child (i : Nat) (pd : pdev_result) (w : World) : Option World :=
  match w.drvdata with
  | none => none
  | some priv =>
    if i < priv.children.length then
      some { w with
        drvdata := some
          { children := priv.children.set i (if pd = .err_ptr 0 then none else some pd) } }
    else none

/-- The loop of `surfacebook2_button_add` at index `i`, with `n` iterations
left. The first component of the result is the error of an early return. -/
def add_loop (env : Env) (button_arr : List surfacebook2_button_info) :
    Nat → Nat → World → Option (Option Int × World)
  | 0, _, w => some (none, w)
  | n + 1, i, w =>
    match surfacebook2_button_device_create (env.create i) button_arr (i == 0) w with
    | none => none
    | some (pd, w1) =>
      if IS_ERR pd = true then
        if PTR_ERR pd ≠ -ENODEV then
          match surfacebook2_button_remove w1 with
          | none => none
          | some (_, w2) => some (some (PTR_ERR pd), w2)
        else add_loop env button_arr n (i + 1) w1
      else
        match store_child i pd w1 with
        | none => none
        | some w2 => add_loop env button_arr n (i + 1) w2

/-- The button table is a parameter; the driver passes its own table
`surfacebook2_button_arr`. -/
def surfacebook2_button_add (button_arr : List surfacebook2_button_info) (env : Env)
    (w : World) : Option (Int × World) :=
  if strncmp env.bid SURFACEBOOK2_BUTTON_OBJ_NAME (strlen SURFACEBOOK2_BUTTON_OBJ_NAME) ≠ 0 then
    some (-ENODEV, w)
  else
    let id := surfacebook2_button_get_id env w
    if id.1 ≠ SURFACEBOOK2_BUTTON_DSM_RET_ID then
      some (-ENODEV, id.2)
    else
      let w1 := (surfacebook2_button_get_id env id.2).2
      if env.priv_alloc_ok = false then
        some (-ENOMEM, w1)
      else
        let w2 := { w1 with drvdata := some { children := List.replicate BUTTON_TYPES none } }
        match add_loop env button_arr BUTTON_TYPES 0 w2 with
        | none => none
        | some (some error, w3) => some (error, w3)
        | some (none, w3) =>
          match w3.drvdata with
          | none => none
          | some priv =>
            match priv.children[0]?, priv.children[1]? with
            | some c0, some c1 =>
              if c0 = none ∧ c1 = none then some (-ENODEV, w3)
              else some (AE_OK, log .acpi_dev_add_driver_gpios w3)
            | _, _ => none

/-! ## Vocabulary of the specification -/

/-- The integer the identity query yields, if it yields one. -/
def dsm_integer (env : Env) : Option Nat :=
  match env.dsm with
  | none => none
  | some obj => if obj.type = ACPI_TYPE_INTEGER then some (obj.integer_value % 2 ^ 64) else none

/-- The identity gate of add passes: the bus identifier begins with the fixed
name and the identity query yields the expected constant. -/
def identity_gate (env : Env) : Prop :=
  SURFACEBOOK2_BUTTON_OBJ_NAME <+: env.bid ∧
    dsm_integer env = some SURFACEBOOK2_BUTTON_DSM_RET_ID

instance (env : Env) : Decidable (identity_gate env) := by
  unfold identity_gate; infer_instance

/-- The table ends with a sentinel: some entry has no name. -/
def sentinel_terminated (arr : List surfacebook2_button_info) : Prop :=
  ∃ e ∈ arr, e.name = none

instance (arr : List surfacebook2_button_info) : Decidable (sentinel_terminated arr) := by
  unfold sentinel_terminated; infer_instance

/-- The buttons of a table: its entries before the sentinel. -/
def catalog (arr : List surfacebook2_button_info) : List surfacebook2_button_info :=
  arr.takeWhile (fun e => e.name.isSome)

/-- The catalog entries whose autorepeat flag equals the selector, in catalog
order. -/
def matching (arr : List surfacebook2_button_info) (selector : Bool) :
    List surfacebook2_button_info :=
  (catalog arr).filter (fun e => e.autorepeat == selector)

/-- The button record the specification derives from a catalog entry. -/
def to_button (info : surfacebook2_button_info) : gpio_keys_button :=
  { type := info.event_type
    code := info.event_code
    gpio := info.gpio
    active_low := info.active_low
    wakeup := info.wakeup
    desc := info.name
    debounce_interval := 1 }

/-- The group configuration the specification derives from a table and a
selector, laid out in the array of `MAX_NBUTTONS` records. -/
def group_pdata (arr : List surfacebook2_button_info) (selector : Bool) :
    gpio_keys_platform_data :=
  { buttons := (matching arr selector).map to_button ++
      List.replicate (MAX_NBUTTONS - (matching arr selector).length) zero_button
    nbuttons := (matching arr selector).length
    rep := selector }

/-- The error with which the service answers a request to create a child, if it
answers with one: device allocation failure, or the code of the first failing
registration call. -/
def service_error (r : CreateEnv) : Option Int :=
  if r.pdev_alloc_ok = false then some (-ENOMEM)
  else if r.add_data_ret ≠ 0 then some r.add_data_ret
  else if r.add_ret ≠ 0 then some r.add_ret
  else none

/-- All collaborators answer one group build with success. -/
def create_succeeds (r : CreateEnv) : Prop :=
  r.kzalloc_ok = true ∧ r.pdev_alloc_ok = true ∧ r.add_data_ret = 0 ∧ r.add_ret = 0

instance (r : CreateEnv) : Decidable (create_succeeds r) := by
  unfold create_succeeds; infer_instance

/-- The pointers handed to the service for release so far, in order. -/
def released (trace : List Event) : List pdev_result :=
  trace.filterMap (fun e =>
    match e with
    | .platform_device_unregister pd => some pd
    | _ => none)

/-- The configurations handed to the service so far. -/
def handed (trace : List Event) : List gpio_keys_platform_data :=
  trace.filterMap (fun e =>
    match e with
    | .platform_device_add_data _ pdata _ => some pdata
    | _ => none)

/-- The world after the service has created a child for a configuration. -/
def child_created (pdata : gpio_keys_platform_data) (w : World) : World :=
  { drvdata := w.drvdata
    next_pd := w.next_pd + 1
    registered := w.registered ++ [(w.next_pd, pdata)]
    trace := w.trace ++ [.platform_device_alloc (some w.next_pd),
      .platform_device_add_data w.next_pd pdata 0, .platform_device_add w.next_pd 0] }

/-! ## Sample inputs -/

/-- The answers of collaborators that never fail, for a device named "VGBI"
whose identity query yields 5. -/
def sample_env : Env :=
  { bid := [0x56, 0x47, 0x42, 0x49]
    dsm := some ⟨ACPI_TYPE_INTEGER, 5⟩
    priv_alloc_ok := true
    create := fun _ => ⟨true, true, 0, 0⟩ }

/-- As `sample_env`, but the service answers the registration of the second
group built with the code `e`. -/
def env_second_refused (e : Int) : Env :=
  { bid := [0x56, 0x47, 0x42, 0x49]
    dsm := some ⟨ACPI_TYPE_INTEGER, 5⟩
    priv_alloc_ok := true
    create := fun i => if i = 0 then ⟨true, true, 0, 0⟩ else ⟨true, true, 0, e⟩ }

/-- As `sample_env`, but the service answers the registration of the first
group built with the code `e`. -/
def env_first_refused (e : Int) : Env :=
  { bid := [0x56, 0x47, 0x42, 0x49]
    dsm := some ⟨ACPI_TYPE_INTEGER, 5⟩
    priv_alloc_ok := true
    create := fun i => if i = 0 then ⟨true, true, 0, e⟩ else ⟨true, true, 0, 0⟩ }

/-- As `sample_env`, for a device named "VGBX". -/
def env_other_bid : Env :=
  { bid := [0x56, 0x47, 0x42, 0x58]
    dsm := some ⟨ACPI_TYPE_INTEGER, 5⟩
    priv_alloc_ok := true
    create := fun _ => ⟨true, true, 0, 0⟩ }

/-- As `sample_env`, but the identity query yields no result. -/
def env_no_dsm : Env :=
  { bid := [0x56, 0x47, 0x42, 0x49]
    dsm := none
    priv_alloc_ok := true
    create := fun _ => ⟨true, true, 0, 0⟩ }

/-- A controller on which add was never called. -/
def fresh_world : World := ⟨none, 1, [], []⟩

/-- A table holding the power button only. -/
def power_only_arr : List surfacebook2_button_info :=
  [ ⟨some "power", 0, 0x01DE, EV_KEY, KEY_POWER, false, true, false⟩, sentinel_info ]

/-- A table holding the sentinel only. -/
def empty_arr : List surfacebook2_button_info := [sentinel_info]

/-- The controller after add has bound `power_only_arr` with `sample_env`,
starting from `fresh_world`. -/
def bound_world : World :=
  { drvdata := some { children := [none, some (.ptr 1)] }
    next_pd := 2
    registered := [(1, group_pdata power_only_arr false)]
    trace := [.acpi_evaluate_dsm, .acpi_evaluate_dsm, .platform_device_alloc (some 1),
      .platform_device_add_data 1 (group_pdata power_only_arr false) 0,
      .platform_device_add 1 0, .acpi_dev_add_driver_gpios] }

/-- The controller after add has found no button in `empty_arr`, starting from
`fresh_world`. -/
def no_buttons_world : World :=
  { drvdata := some { children := [none, none] }
    next_pd := 1
    registered := []
    trace := [.acpi_evaluate_dsm, .acpi_evaluate_dsm] }

/-- The controller after add has aborted on the first group of the driver's
table, the service refusing its registration with `-ENOMEM`, starting from
`fresh_world`. -/
def first_abort_world : World :=
  { drvdata := some { children := [none, none] }
    next_pd := 2
    registered := []
    trace := [.acpi_evaluate_dsm, .acpi_evaluate_dsm, .platform_device_alloc (some 1),
      .platform_device_add_data 1 (group_pdata surfacebook2_button_arr true) 0,
      .platform_device_add 1 (-ENOMEM), .platform_device_put 1] }

/-- The controller after add has found the first group of `power_only_arr`
absent and aborted on the second, the service refusing its registration with
`-ENOMEM`, starting from `fresh_world`. -/
def second_abort_world : World :=
  { drvdata := some { children := [none, none] }
    next_pd := 2
    registered := []
    trace := [.acpi_evaluate_dsm, .acpi_evaluate_dsm, .platform_device_alloc (some 1),
      .platform_device_add_data 1 (group_pdata power_only_arr false) 0,
      .platform_device_add 1 (-ENOMEM), .platform_device_put 1] }

/-! ## The identity gate -/

theorem strncmp_eq_zero_iff (p : List Nat) (hp : ∀ c ∈ p, c ≠ 0) (s : List Nat) :
    strncmp s p p.length = 0 ↔ p <+: s := by
  induction p generalizing s with
  | nil => simp [strncmp]
  | cons c p ih =>
    have hc : c ≠ 0 := hp c (List.mem_cons_self _ _)
    have hp2 : ∀ d ∈ p, d ≠ 0 := fun d hd => hp d (List.mem_cons_of_mem _ hd)
    cases s with
    | nil =>
      have : (0 : Nat) ≠ c := fun h => hc h.symm
      simp [strncmp, this]
      split <;> simp
    | cons a s =>
      by_cases hac : a = c
      · subst hac
        simp [strncmp, hc, ih hp2 s, List.cons_prefix_cons]
      · have hca : ¬ c = a := fun h => hac h.symm
        simp [strncmp, hac, hca, List.cons_prefix_cons]
        split <;> simp

theorem gate_strncmp (env : Env) :
    strncmp env.bid SURFACEBOOK2_BUTTON_OBJ_NAME (strlen SURFACEBOOK2_BUTTON_OBJ_NAME) = 0 ↔
      SURFACEBOOK2_BUTTON_OBJ_NAME <+: env.bid := by
  have hlen : strlen SURFACEBOOK2_BUTTON_OBJ_NAME = SURFACEBOOK2_BUTTON_OBJ_NAME.length := by
    decide
  rw [hlen]
  exact strncmp_eq_zero_iff _ (by decide) _

theorem get_id_fst (env : Env) (w : World) :
    (surfacebook2_button_get_id env w).1 =
      (dsm_integer env).getD (u64_of_int (-EINVAL)) := by
  unfold surfacebook2_button_get_id dsm_integer
  cases h : env.dsm with
  | none => simp
  | some obj =>
    by_cases ht : obj.type = ACPI_TYPE_INTEGER <;> simp [ht]

theorem get_id_snd (env : Env) (w : World) :
    (surfacebook2_button_get_id env w).2 = log .acpi_evaluate_dsm w := by
  unfold surfacebook2_button_get_id
  cases h : env.dsm with
  | none => simp
  | some obj =>
    by_cases ht : obj.type = ACPI_TYPE_INTEGER <;> simp [ht]

theorem u64_einval : u64_of_int (-EINVAL) = 2 ^ 64 - 22 := by
  decide

/-- What add does once the identity gate has passed. -/
theorem add_of_gate (arr : List surfacebook2_button_info) (env : Env) (w : World)
    (hgate : identity_gate env) :
    surfacebook2_button_add arr env w =
      if env.priv_alloc_ok = false then
        some (-ENOMEM, log .acpi_evaluate_dsm (log .acpi_evaluate_dsm w))
      else
        match add_loop env arr BUTTON_TYPES 0
            { log .acpi_evaluate_dsm (log .acpi_evaluate_dsm w) with
              drvdata := some { children := List.replicate BUTTON_TYPES none } } with
        | none => none
        | some (some error, w3) => some (error, w3)
        | some (none, w3) =>
          match w3.drvdata with
          | none => none
          | some priv =>
            match priv.children[0]?, priv.children[1]? with
            | some c0, some c1 =>
              if c0 = none ∧ c1 = none then some (-ENODEV, w3)
              else some (AE_OK, log .acpi_dev_add_driver_gpios w3)
            | _, _ => none := by
  obtain ⟨hbid, hid⟩ := hgate
  have h1 := (gate_strncmp env).mpr hbid
  unfold surfacebook2_button_add
  simp only [h1, ne_eq, not_true_eq_false, if_false, get_id_fst, get_id_snd, hid,
    Option.getD_some]

/-! ## Building a group -/

theorem fill_buttons_spec (sel : Bool) (arr : List surfacebook2_button_info)
    (hterm : sentinel_terminated arr) (pre : List gpio_keys_button) (k : Nat)
    (hk : (matching arr sel).length ≤ k) :
    fill_buttons sel arr (pre ++ List.replicate k zero_button) pre.length =
      some (pre ++ (matching arr sel).map to_button ++
              List.replicate (k - (matching arr sel).length) zero_button,
            pre.length + (matching arr sel).length) := by
  induction arr generalizing pre k with
  | nil => obtain ⟨e, he, _⟩ := hterm; simp at he
  | cons info rest ih =>
    cases hn : info.name with
    | none => simp [fill_buttons, hn, matching, catalog]
    | some nm =>
      have hterm2 : sentinel_terminated rest := by
        obtain ⟨e, he, hen⟩ := hterm
        rcases List.mem_cons.mp he with h | h
        · subst h; rw [hn] at hen; simp at hen
        · exact ⟨e, h, hen⟩
      by_cases hrep : info.autorepeat = sel
      · have hm : matching (info :: rest) sel = info :: matching rest sel := by
          simp [matching, catalog, hn, hrep]
        rw [hm] at hk ⊢
        simp only [List.length_cons] at hk
        obtain ⟨k2, rfl⟩ : ∃ k2, k = k2 + 1 := ⟨k - 1, by omega⟩
        have hk2 : (matching rest sel).length ≤ k2 := by omega
        have hset : (pre ++ List.replicate (k2 + 1) zero_button).set pre.length (to_button info) =
            (pre ++ [to_button info]) ++ List.replicate k2 zero_button := by
          simp [List.replicate_succ, List.set_append_right]
        have hlen : pre.length + 1 = (pre ++ [to_button info]).length := by simp
        have := ih hterm2 (pre ++ [to_button info]) k2 hk2
        simp only [fill_buttons, hn, hrep, bne_self_eq_false, Bool.false_eq_true, if_false,
          List.length_append, List.length_replicate]
        rw [if_pos (by omega)]
        have hb : (⟨info.event_type, info.event_code, info.gpio, info.active_low, some nm,
            info.wakeup, 1⟩ : gpio_keys_button) = to_button info := by
          simp [to_button, hn]
        rw [hb, hset, hlen, this]
        simp [List.length_cons]
        omega
      · have hm : matching (info :: rest) sel = matching rest sel := by
          simp [matching, catalog, hn, hrep]
        rw [hm] at hk ⊢
        have hne : (info.autorepeat != sel) = true := by simpa using hrep
        simp only [fill_buttons, hn, hne, if_true]
        exact ih hterm2 pre k hk

theorem fill_buttons_fresh (sel : Bool) (arr : List surfacebook2_button_info)
    (hterm : sentinel_terminated arr) (hmax : (matching arr sel).length ≤ MAX_NBUTTONS) :
    fill_buttons sel arr (List.replicate MAX_NBUTTONS zero_button) 0 =
      some ((group_pdata arr sel).buttons, (matching arr sel).length) := by
  have := fill_buttons_spec sel arr hterm [] MAX_NBUTTONS hmax
  simpa [group_pdata] using this

theorem create_absent (r : CreateEnv) (arr : List surfacebook2_button_info) (sel : Bool)
    (w : World) (hk : r.kzalloc_ok = true) (hterm : sentinel_terminated arr)
    (hnone : matching arr sel = []) :
    surfacebook2_button_device_create r arr sel w = some (.err_ptr (-ENODEV), w) := by
  have hmax : (matching arr sel).length ≤ MAX_NBUTTONS := by simp [hnone]
  simp [surfacebook2_button_device_create, hk, fill_buttons_fresh sel arr hterm hmax, hnone]

theorem create_child (r : CreateEnv) (arr : List surfacebook2_button_info) (sel : Bool)
    (w : World) (hr : create_succeeds r) (hterm : sentinel_terminated arr)
    (hsome : matching arr sel ≠ []) (hmax : (matching arr sel).length ≤ MAX_NBUTTONS) :
    surfacebook2_button_device_create r arr sel w =
      some (.ptr w.next_pd, child_created (group_pdata arr sel) w) := by
  obtain ⟨hk, ha, hd, hadd⟩ := hr
  have hlen : (matching arr sel).length ≠ 0 := by
    simpa [List.length_eq_zero] using hsome
  simp [surfacebook2_button_device_create, hk, ha, hd, hadd,
    fill_buttons_fresh sel arr hterm hmax, hlen, log, child_created, group_pdata]

theorem create_service_error (r : CreateEnv) (arr : List surfacebook2_button_info) (sel : Bool)
    (w : World) (e : Int) (hk : r.kzalloc_ok = true) (hterm : sentinel_terminated arr)
    (hsome : matching arr sel ≠ []) (hmax : (matching arr sel).length ≤ MAX_NBUTTONS)
    (he : service_error r = some e) :
    ∃ w1, surfacebook2_button_device_create r arr sel w = some (.err_ptr e, w1) ∧
      w1.drvdata = w.drvdata ∧ w1.registered = w.registered ∧
      released w1.trace = released w.trace := by
  have hlen : (matching arr sel).length ≠ 0 := by
    simpa [List.length_eq_zero] using hsome
  unfold service_error at he
  by_cases ha : r.pdev_alloc_ok = false
  · simp only [ha, if_true, Option.some.injEq] at he
    subst he
    refine ⟨log (.platform_device_alloc none) w, ?_, rfl, rfl, ?_⟩
    · simp [surfacebook2_button_device_create, hk, ha,
        fill_buttons_fresh sel arr hterm hmax, hlen]
    · simp [log, released, List.filterMap_append]
  · have ha2 : r.pdev_alloc_ok = true := by simpa using ha
    by_cases hd : r.add_data_ret = 0
    · by_cases hadd : r.add_ret = 0
      · simp [ha2, hd, hadd] at he
      · have he2 : r.add_ret = e := by simpa [ha2, hd, hadd] using he
        subst he2
        refine ⟨log (.platform_device_put w.next_pd)
          (log (.platform_device_add w.next_pd r.add_ret)
            (log (.platform_device_add_data w.next_pd (group_pdata arr sel) r.add_data_ret)
              (log (.platform_device_alloc (some w.next_pd))
                { w with next_pd := w.next_pd + 1 }))), ?_, rfl, rfl, ?_⟩
        · simp only [surfacebook2_button_device_create, hk, ha2,
            fill_buttons_fresh sel arr hterm hmax, hlen]
          simp [hadd, hd, group_pdata]
        · simp [log, released, List.filterMap_append]
    · have he2 : r.add_data_ret = e := by simpa [ha2, hd] using he
      subst he2
      refine ⟨log (.platform_device_put w.next_pd)
          (log (.platform_device_add_data w.next_pd (group_pdata arr sel) r.add_data_ret)
            (log (.platform_device_alloc (some w.next_pd))
              { w with next_pd := w.next_pd + 1 })), ?_, rfl, rfl, ?_⟩
      · simp only [surfacebook2_button_device_create, hk, ha2,
          fill_buttons_fresh sel arr hterm hmax, hlen]
        simp [hd, group_pdata]
      · simp [log, released, List.filterMap_append]

/-! ## Adding a device -/

theorem add_two_groups (arr : List surfacebook2_button_info) (env : Env) (w : World)
    (hgate : identity_gate env) (hpriv : env.priv_alloc_ok = true)
    (h0 : create_succeeds (env.create 0)) (h1 : create_succeeds (env.create 1))
    (hterm : sentinel_terminated arr)
    (hrep : matching arr true ≠ []) (hrepmax : (matching arr true).length ≤ MAX_NBUTTONS)
    (hnorep : matching arr false ≠ []) (hnorepmax : (matching arr false).length ≤ MAX_NBUTTONS) :
    surfacebook2_button_add arr env w =
      some (AE_OK,
        { drvdata := some { children := [some (.ptr w.next_pd), some (.ptr (w.next_pd + 1))] }
          next_pd := w.next_pd + 2
          registered := w.registered ++
            [(w.next_pd, group_pdata arr true), (w.next_pd + 1, group_pdata arr false)]
          trace := w.trace ++
            [.acpi_evaluate_dsm, .acpi_evaluate_dsm,
             .platform_device_alloc (some w.next_pd),
             .platform_device_add_data w.next_pd (group_pdata arr true) 0,
             .platform_device_add w.next_pd 0,
             .platform_device_alloc (some (w.next_pd + 1)),
             .platform_device_add_data (w.next_pd + 1) (group_pdata arr false) 0,
             .platform_device_add (w.next_pd + 1) 0,
             .acpi_dev_add_driver_gpios] }) := by
  rw [add_of_gate arr env w hgate]
  simp only [hpriv, Bool.true_eq_false, if_false, BUTTON_TYPES, add_loop, beq_self_eq_true,
    create_child _ arr true _ h0 hterm hrep hrepmax]
  simp [child_created, log, add_loop, create_child _ arr false _ h1 hterm hnorep hnorepmax,
    AE_OK, IS_ERR, store_child]

theorem add_one_group (arr : List surfacebook2_button_info) (env : Env) (w : World)
    (hgate : identity_gate env) (hpriv : env.priv_alloc_ok = true)
    (h0 : (env.create 0).kzalloc_ok = true) (h1 : create_succeeds (env.create 1))
    (hterm : sentinel_terminated arr)
    (hrep : matching arr true = [])
    (hnorep : matching arr false ≠ []) (hnorepmax : (matching arr false).length ≤ MAX_NBUTTONS) :
    surfacebook2_button_add arr env w =
      some (AE_OK,
        { drvdata := some { children := [none, some (.ptr w.next_pd)] }
          next_pd := w.next_pd + 1
          registered := w.registered ++ [(w.next_pd, group_pdata arr false)]
          trace := w.trace ++
            [.acpi_evaluate_dsm, .acpi_evaluate_dsm,
             .platform_device_alloc (some w.next_pd),
             .platform_device_add_data w.next_pd (group_pdata arr false) 0,
             .platform_device_add w.next_pd 0,
             .acpi_dev_add_driver_gpios] }) := by
  have herr : IS_ERR (.err_ptr (-ENODEV)) = true := by decide
  rw [add_of_gate arr env w hgate]
  simp only [hpriv, Bool.true_eq_false, if_false, BUTTON_TYPES, add_loop, beq_self_eq_true,
    create_absent _ arr true _ h0 hterm hrep, herr, PTR_ERR]
  simp [child_created, log, add_loop, create_child _ arr false _ h1 hterm hnorep hnorepmax,
    AE_OK, IS_ERR, store_child]

theorem remove_two_slots (w : World) (c0 c1 : Option pdev_result)
    (rest : List (Option pdev_result))
    (h : w.drvdata = some { children := c0 :: c1 :: rest }) :
    ∃ w1, surfacebook2_button_remove w = some (AE_OK, w1) ∧ w1.drvdata = w.drvdata ∧
      released w1.trace = released w.trace ++ [c0, c1].filterMap id ∧
      w1.registered = ([c0, c1].filterMap id).foldl
        (fun r pd => r.filter (fun d => pdev_result.ptr d.1 != pd)) w.registered ∧
      (c0 = none → c1 = none → w1 = w) := by
  cases c0 <;> cases c1 <;>
    simp [surfacebook2_button_remove, h, BUTTON_TYPES, remove_loop, platform_device_unregister,
      released, List.filterMap_append]

theorem IS_ERR_err_ptr (e : Int) (hrange : -MAX_ERRNO ≤ e ∧ e < 0) :
    IS_ERR (.err_ptr e) = true := by
  simp [IS_ERR, hrange]

theorem add_two_groups_second_refused (arr : List surfacebook2_button_info) (env : Env)
    (w : World) (e : Int)
    (hgate : identity_gate env) (hpriv : env.priv_alloc_ok = true)
    (h0 : create_succeeds (env.create 0)) (h1 : (env.create 1).kzalloc_ok = true)
    (he : service_error (env.create 1) = some e)
    (hrange : -MAX_ERRNO ≤ e ∧ e < 0) (hne : e ≠ -ENODEV)
    (hterm : sentinel_terminated arr)
    (hrep : matching arr true ≠ []) (hrepmax : (matching arr true).length ≤ MAX_NBUTTONS)
    (hnorep : matching arr false ≠ []) (hnorepmax : (matching arr false).length ≤ MAX_NBUTTONS) :
    ∃ w1, surfacebook2_button_add arr env w = some (e, w1) ∧
      released w1.trace = released w.trace ++ [.ptr w.next_pd] ∧
      w1.registered = w.registered.filter (fun d => d.1 != w.next_pd) ∧
      w1.drvdata = some { children := [some (.ptr w.next_pd), none] } := by
  rw [add_of_gate arr env w hgate]
  simp only [hpriv, Bool.true_eq_false, if_false, BUTTON_TYPES, add_loop, beq_self_eq_true,
    create_child _ arr true _ h0 hterm hrep hrepmax]
  simp only [child_created, log, List.replicate, List.length_cons, List.length_nil,
    Nat.zero_lt_succ, if_true, List.set_cons_zero, Nat.reduceAdd, IS_ERR, store_child,
    Bool.false_eq_true, if_false, reduceCtorEq]
  obtain ⟨v, hv, hvd, hvr, hvt⟩ := create_service_error (env.create 1) arr false
    { drvdata := some { children := [some (.ptr w.next_pd), none] }
      next_pd := w.next_pd + 1
      registered := w.registered ++ [(w.next_pd, group_pdata arr true)]
      trace := w.trace ++ [.acpi_evaluate_dsm] ++ [.acpi_evaluate_dsm] ++
        [.platform_device_alloc (some w.next_pd),
         .platform_device_add_data w.next_pd (group_pdata arr true) 0,
         .platform_device_add w.next_pd 0] } e h1 hterm hnorep hnorepmax he
  obtain ⟨v1, hrm, hrd, hrt, hrr, _⟩ := remove_two_slots v (some (.ptr w.next_pd)) none [] hvd
  have hb : ((1 : Nat) == 0) = false := by decide
  have hdec : decide (-MAX_ERRNO ≤ e ∧ e < 0) = true := by simpa using hrange
  simp only [hb, hv, hne, ne_eq, not_false_eq_true, if_true, hrm, hdec, PTR_ERR]
  refine ⟨v1, rfl, ?_, ?_, ?_⟩
  · rw [hrt, hvt]
    simp [released, List.filterMap_append]
  · rw [hrr, hvr]
    have hfm : List.filterMap id [some (pdev_result.ptr w.next_pd), none] =
        [pdev_result.ptr w.next_pd] := rfl
    have hfun : (fun d : Nat × gpio_keys_platform_data =>
        pdev_result.ptr d.1 != pdev_result.ptr w.next_pd) = (fun d => d.1 != w.next_pd) := by
      funext d
      by_cases hd : d.1 = w.next_pd
      · rw [hd]; simp
      · have hp : pdev_result.ptr d.1 ≠ pdev_result.ptr w.next_pd :=
          fun h => hd (pdev_result.ptr.inj h)
        rw [bne_iff_ne.mpr hd, bne_iff_ne.mpr hp]
    rw [hfm]
    simp only [List.foldl_cons, List.foldl_nil, hfun, List.filter_append]
    simp
  · rw [hrd, hvd]

theorem create_frame (r : CreateEnv) (arr : List surfacebook2_button_info)
    (sel : Bool) (w w1 : World) (res : pdev_result)
    (h : surfacebook2_button_device_create r arr sel w = some (res, w1)) :
    w1.drvdata = w.drvdata ∧ released w1.trace = released w.trace := by
  unfold surfacebook2_button_device_create at h
  split at h
  · simp only [Option.some.injEq, Prod.mk.injEq] at h
    rw [← h.2]; exact ⟨rfl, rfl⟩
  · split at h
    · exact absurd h (by simp)
    · split at h
      · simp only [Option.some.injEq, Prod.mk.injEq] at h
        rw [← h.2]; exact ⟨rfl, rfl⟩
      · simp only at h
        split at h
        · simp only [Option.some.injEq, Prod.mk.injEq] at h
          rw [← h.2]; exact ⟨rfl, by simp [log, released, List.filterMap_append]⟩
        · split at h
          · simp only [Option.some.injEq, Prod.mk.injEq] at h
            rw [← h.2]; exact ⟨rfl, by simp [log, released, List.filterMap_append]⟩
          · split at h
            · simp only [Option.some.injEq, Prod.mk.injEq] at h
              rw [← h.2]; exact ⟨rfl, by simp [log, released, List.filterMap_append]⟩
            · simp only [Option.some.injEq, Prod.mk.injEq] at h
              rw [← h.2]; exact ⟨rfl, by simp [log, released, List.filterMap_append]⟩

theorem store_child_two (i : Nat) (pd : pdev_result) (w w1 : World)
    (c0 c1 : Option pdev_result) (hd : w.drvdata = some { children := [c0, c1] })
    (h : store_child i pd w = some w1) :
    w1.trace = w.trace ∧ ∃ d0 d1, w1.drvdata = some { children := [d0, d1] } := by
  unfold store_child at h
  rw [hd] at h
  simp only at h
  split at h
  · simp only [Option.some.injEq] at h
    rw [← h]
    refine ⟨rfl, ?_⟩
    match i with
    | 0 => exact ⟨_, _, rfl⟩
    | 1 => exact ⟨_, _, rfl⟩
    | k + 2 => rename_i hlt; simp at hlt
  · exact absurd h (by simp)

/-- What the loop of add leaves behind when it starts with two slots: two
slots again; on an early return, a negative error other than `-ENODEV` after
remove has released what the slots hold; otherwise nothing released. -/
theorem add_loop_frame (env : Env) (arr : List surfacebook2_button_info) (n i : Nat)
    (w w1 : World) (r : Option Int) (c0 c1 : Option pdev_result)
    (hd : w.drvdata = some { children := [c0, c1] })
    (h : add_loop env arr n i w = some (r, w1)) :
    ∃ d0 d1, w1.drvdata = some { children := [d0, d1] } ∧
      (r = none → released w1.trace = released w.trace) ∧
      (∀ e, r = some e → released w1.trace = released w.trace ++ [d0, d1].filterMap id ∧
          e < 0 ∧ e ≠ -ENODEV) := by
  induction n generalizing i w c0 c1 with
  | zero =>
    simp only [add_loop, Option.some.injEq, Prod.mk.injEq] at h
    obtain ⟨hr, hw⟩ := h
    subst hr; subst hw
    exact ⟨c0, c1, hd, fun _ => rfl, fun e he => absurd he (by simp)⟩
  | succ n ih =>
    unfold add_loop at h
    split at h
    · exact absurd h (by simp)
    · rename_i pd v hc
      obtain ⟨hvd, hvt⟩ := create_frame _ _ _ _ _ _ hc
      split at h
      · rename_i herr
        split at h
        · rename_i hne
          obtain ⟨v1, hrm, hrd, hrt, _, _⟩ := remove_two_slots v c0 c1 [] (hvd.trans hd)
          rw [hrm] at h
          simp only [Option.some.injEq, Prod.mk.injEq] at h
          obtain ⟨hr, hw⟩ := h
          subst hr; subst hw
          refine ⟨c0, c1, hrd.trans (hvd.trans hd), fun hn => absurd hn (by simp),
            fun e he => ?_⟩
          simp only [Option.some.injEq] at he
          subst he
          refine ⟨?_, ?_, hne⟩
          · rw [hrt, hvt]
          · cases pd with
            | ptr p => simp [IS_ERR] at herr
            | err_ptr e =>
              simp only [IS_ERR, decide_eq_true_eq] at herr
              exact herr.2
        · obtain ⟨d0, d1, hd1, hm⟩ := ih (i + 1) v c0 c1 (hvd.trans hd) h
          rw [hvt] at hm
          exact ⟨d0, d1, hd1, hm⟩
      · split at h
        · exact absurd h (by simp)
        · rename_i v2 hs
          obtain ⟨hst, e0, e1, hsd⟩ := store_child_two _ _ _ _ c0 c1 (hvd.trans hd) hs
          obtain ⟨d0, d1, hd1, hm⟩ := ih (i + 1) v2 e0 e1 hsd h
          rw [hst, hvt] at hm
          exact ⟨d0, d1, hd1, hm⟩

theorem add_loop_error (env : Env) (arr : List surfacebook2_button_info)
    (w w1 : World) (e : Int)
    (h : add_loop env arr BUTTON_TYPES 0
      { w with drvdata := some { children := List.replicate BUTTON_TYPES none } } =
        some (some e, w1)) :
    e ≠ 0 ∧ e ≠ -ENODEV := by
  obtain ⟨d0, d1, _, _, hsome⟩ :=
    add_loop_frame env arr BUTTON_TYPES 0 _ w1 (some e) none none rfl h
  obtain ⟨_, hneg, hne⟩ := hsome e rfl
  exact ⟨by omega, hne⟩

/-- The state in which add returns success: private data attached, not both
slots empty. -/
theorem add_success_shape (arr : List surfacebook2_button_info) (env : Env) (w0 w : World)
    (h : surfacebook2_button_add arr env w0 = some (AE_OK, w)) :
    ∃ c0 c1 rest, w.drvdata = some { children := c0 :: c1 :: rest } ∧
      ¬ (c0 = none ∧ c1 = none) := by
  unfold surfacebook2_button_add at h
  split at h
  · simp only [Option.some.injEq, Prod.mk.injEq] at h
    exact absurd h.1 (by decide)
  · simp only at h
    split at h
    · simp only [Option.some.injEq, Prod.mk.injEq] at h
      exact absurd h.1 (by decide)
    · split at h
      · simp only [Option.some.injEq, Prod.mk.injEq] at h
        exact absurd h.1 (by decide)
      · split at h
        · exact absurd h (by simp)
        · rename_i error w3 hl
          simp only [Option.some.injEq, Prod.mk.injEq] at h
          exact absurd h.1 (add_loop_error _ _ _ _ _ hl).1
        · rename_i w3 hl
          split at h
          · exact absurd h (by simp)
          · rename_i priv hp
            split at h
            · rename_i c0 c1 hc0 hc1
              split at h
              · simp only [Option.some.injEq, Prod.mk.injEq] at h
                exact absurd h.1 (by decide)
              · rename_i hnot
                simp only [Option.some.injEq, Prod.mk.injEq, true_and] at h
                subst h
                obtain ⟨cs⟩ := priv
                match cs, hc0, hc1 with
                | a :: b :: rest, hc0, hc1 =>
                  simp only [List.getElem?_cons_zero, Option.some.injEq, List.getElem?_cons_succ]
                    at hc0 hc1
                  subst hc0; subst hc1
                  exact ⟨a, b, rest, by simp [log, hp], hnot⟩
            · exact absurd h (by simp)

/-- The state in which add returns `-ENODEV` after the identity gate has
passed: private data attached, both slots empty. -/
theorem add_no_buttons_shape (arr : List surfacebook2_button_info) (env : Env) (w0 w : World)
    (hgate : identity_gate env)
    (h : surfacebook2_button_add arr env w0 = some (-ENODEV, w)) :
    ∃ rest, w.drvdata = some { children := none :: none :: rest } := by
  rw [add_of_gate arr env w0 hgate] at h
  split at h
  · simp only [Option.some.injEq, Prod.mk.injEq] at h
    exact absurd h.1 (by decide)
  · split at h
    · exact absurd h (by simp)
    · rename_i error w3 hl
      simp only [Option.some.injEq, Prod.mk.injEq] at h
      exact absurd h.1 (add_loop_error _ _ _ _ _ hl).2
    · rename_i w3 hl
      split at h
      · exact absurd h (by simp)
      · rename_i priv hp
        split at h
        · rename_i c0 c1 hc0 hc1
          split at h
          · rename_i hboth
            simp only [Option.some.injEq, Prod.mk.injEq, true_and] at h
            subst h
            obtain ⟨cs⟩ := priv
            match cs, hc0, hc1 with
            | a :: b :: rest, hc0, hc1 =>
              simp only [List.getElem?_cons_zero, Option.some.injEq, List.getElem?_cons_succ]
                at hc0 hc1
              subst hc0; subst hc1
              obtain ⟨ha, hb⟩ := hboth
              subst ha; subst hb
              exact ⟨rest, hp⟩
          · simp only [Option.some.injEq, Prod.mk.injEq] at h
            exact absurd h.1 (by decide)
        · exact absurd h (by simp)

/-- The state in which add, past the identity gate and with its private data
allocated, returns an error without anything having been released: private
data attached, both slots empty. -/
theorem add_abort_shape (arr : List surfacebook2_button_info) (env : Env) (w0 w : World)
    (code : Int) (hgate : identity_gate env) (hpriv : env.priv_alloc_ok = true)
    (h : surfacebook2_button_add arr env w0 = some (code, w))
    (hfail : code ≠ AE_OK) (hrel : released w.trace = released w0.trace) :
    ∃ rest, w.drvdata = some { children := none :: none :: rest } := by
  by_cases hcode : code = -ENODEV
  · subst hcode
    exact add_no_buttons_shape arr env w0 w hgate h
  · rw [add_of_gate arr env w0 hgate] at h
    simp only [hpriv, Bool.true_eq_false, if_false] at h
    split at h
    · exact absurd h (by simp)
    · rename_i error w3 hl
      simp only [Option.some.injEq, Prod.mk.injEq] at h
      obtain ⟨_, hw⟩ := h
      subst hw
      obtain ⟨d0, d1, hd, _, hsome⟩ :=
        add_loop_frame env arr BUTTON_TYPES 0 _ w3 (some error) none none rfl hl
      obtain ⟨ht, _, _⟩ := hsome error rfl
      have hlog : released (log Event.acpi_evaluate_dsm (log Event.acpi_evaluate_dsm w0)).trace =
          released w0.trace := by
        simp [log, released, List.filterMap_append]
      simp only at ht
      rw [hlog, hrel] at ht
      have hnil : [d0, d1].filterMap id = [] := by
        have := congrArg List.length ht
        simp only [List.length_append] at this
        exact List.length_eq_zero.mp (by omega)
      cases d0 <;> cases d1 <;> simp at hnil
      exact ⟨[], hd⟩
    · rename_i w3 hl
      split at h
      · exact absurd h (by simp)
      · split at h
        · split at h
          · simp only [Option.some.injEq, Prod.mk.injEq] at h
            exact absurd h.1.symm hcode
          · simp only [Option.some.injEq, Prod.mk.injEq] at h
            exact absurd h.1.symm hfail
        · exact absurd h (by simp)

theorem handed_child_created (pdata : gpio_keys_platform_data) (w : World) :
    handed (child_created pdata w).trace = handed w.trace ++ [pdata] := by
  simp [child_created, handed, List.filterMap_append]

/-- With both allocations succeeding and a non-empty group within the array,
create hands the specified configuration to the service, whatever the service
answers. -/
theorem create_hands (r : CreateEnv) (arr : List surfacebook2_button_info) (sel : Bool)
    (w : World) (hk : r.kzalloc_ok = true) (ha : r.pdev_alloc_ok = true)
    (hterm : sentinel_terminated arr)
    (hsome : matching arr sel ≠ []) (hmax : (matching arr sel).length ≤ MAX_NBUTTONS) :
    ∃ res w1, surfacebook2_button_device_create r arr sel w = some (res, w1) ∧
      handed w1.trace = handed w.trace ++ [group_pdata arr sel] := by
  have hlen : (matching arr sel).length ≠ 0 := by
    simpa [List.length_eq_zero] using hsome
  by_cases hd : r.add_data_ret = 0
  · by_cases hadd : r.add_ret = 0
    · exact ⟨_, _, create_child r arr sel w ⟨hk, ha, hd, hadd⟩ hterm hsome hmax,
        handed_child_created _ _⟩
    · refine ⟨.err_ptr r.add_ret, log (.platform_device_put w.next_pd)
          (log (.platform_device_add w.next_pd r.add_ret)
            (log (.platform_device_add_data w.next_pd (group_pdata arr sel) r.add_data_ret)
              (log (.platform_device_alloc (some w.next_pd))
                { w with next_pd := w.next_pd + 1 }))), ?_, ?_⟩
      · simp only [surfacebook2_button_device_create, hk, ha,
          fill_buttons_fresh sel arr hterm hmax, hlen]
        simp [hadd, hd, group_pdata]
      · simp [log, handed, List.filterMap_append]
  · refine ⟨.err_ptr r.add_data_ret, log (.platform_device_put w.next_pd)
          (log (.platform_device_add_data w.next_pd (group_pdata arr sel) r.add_data_ret)
            (log (.platform_device_alloc (some w.next_pd))
              { w with next_pd := w.next_pd + 1 })), ?_, ?_⟩
    · simp only [surfacebook2_button_device_create, hk, ha,
        fill_buttons_fresh sel arr hterm hmax, hlen]
      simp [hd, group_pdata]
    · simp [log, handed, List.filterMap_append]

theorem matching_of_all_non_repeating (arr : List surfacebook2_button_info)
    (hall : ∀ e ∈ catalog arr, e.autorepeat = false) :
    matching arr true = [] ∧ matching arr false = catalog arr := by
  constructor
  · simp only [matching, List.filter_eq_nil_iff]
    intro e he
    simp [hall e he]
  · simp only [matching, List.filter_eq_self]
    intro e he
    simp [hall e he]

/-! ## The claims -/

/-- C1: with the driver's three-button table, the identity gate passing and
every allocation and service call succeeding, add returns success and registers
exactly two new children: one whose configuration repeats and holds "voldown"
then "volup", and one whose configuration does not repeat and holds "power"
only. -/
theorem add_fixed_catalog_creates_two_children (env : Env) (w : World)
    (hgate : identity_gate env) (hpriv : env.priv_alloc_ok = true)
    (hsvc : ∀ i, create_succeeds (env.create i)) :
    ∃ w1 rep norep,
      surfacebook2_button_add surfacebook2_button_arr env w = some (AE_OK, w1) ∧
      w1.registered = w.registered ++ [rep, norep] ∧ rep.1 ≠ norep.1 ∧
      rep.2.rep = true ∧
      (rep.2.buttons.take rep.2.nbuttons).map (fun b => b.desc) =
        [some "voldown", some "volup"] ∧
      norep.2.rep = false ∧
      (norep.2.buttons.take norep.2.nbuttons).map (fun b => b.desc) = [some "power"] := by
  refine ⟨_, (w.next_pd, group_pdata surfacebook2_button_arr true),
    (w.next_pd + 1, group_pdata surfacebook2_button_arr false),
    add_two_groups surfacebook2_button_arr env w hgate hpriv (hsvc 0) (hsvc 1)
      (by decide) (by decide) (by decide) (by decide) (by decide),
    rfl, by simp, rfl, rfl, rfl, rfl⟩

theorem add_fixed_catalog_creates_two_children_witness :
    identity_gate sample_env ∧
    ∃ w1 rep norep,
      surfacebook2_button_add surfacebook2_button_arr sample_env fresh_world =
        some (AE_OK, w1) ∧
      w1.registered = fresh_world.registered ++ [rep, norep] ∧ rep.1 ≠ norep.1 ∧
      rep.2.rep = true ∧
      (rep.2.buttons.take rep.2.nbuttons).map (fun b => b.desc) =
        [some "voldown", some "volup"] ∧
      norep.2.rep = false ∧
      (norep.2.buttons.take norep.2.nbuttons).map (fun b => b.desc) = [some "power"] :=
  ⟨by decide, add_fixed_catalog_creates_two_children sample_env fresh_world (by decide) rfl
    (fun _ => ⟨rfl, rfl, rfl, rfl⟩)⟩

/-- C2 fails as stated: when the service answers the second group with
`-ENODEV`, add returns success and releases nothing; when it answers with the
non-zero code 5, which is no error pointer once wrapped, add stores the wrapped
code in slot 1, releases nothing and returns success; and when it answers with
`-ENOMEM`, add returns that error but slot 0 still holds the released child. -/
theorem add_second_group_refused_counterexample :
    (surfacebook2_button_add surfacebook2_button_arr (env_second_refused (-ENODEV))
        fresh_world).map (fun r => (r.1, released r.2.trace)) = some (AE_OK, []) ∧
    (surfacebook2_button_add surfacebook2_button_arr (env_second_refused 5)
        fresh_world).map (fun r => (r.1, released r.2.trace, r.2.drvdata)) =
      some (AE_OK, [], some { children := [some (.ptr 1), some (.err_ptr 5)] }) ∧
    (surfacebook2_button_add surfacebook2_button_arr (env_second_refused (-ENOMEM))
        fresh_world).map (fun r => (r.1, r.2.drvdata)) =
      some (-ENOMEM, some { children := [some (.ptr 1), none] }) := by
  decide

/-- C2, amended: if the first group's child was created and the service answers
the second, non-empty group with an error in the errno range `-MAX_ERRNO` to
`-1` other than `-ENODEV`, add returns exactly that error, the first child is
released exactly once and nothing else is released, and the first child is no
longer registered; slot 0 still holds the released child, since remove does not
clear the slots. -/
theorem add_rolls_back_first_child (arr : List surfacebook2_button_info) (env : Env)
    (w : World) (e : Int)
    (hgate : identity_gate env) (hpriv : env.priv_alloc_ok = true)
    (h0 : create_succeeds (env.create 0)) (h1 : (env.create 1).kzalloc_ok = true)
    (he : service_error (env.create 1) = some e)
    (hrange : -MAX_ERRNO ≤ e ∧ e < 0) (hne : e ≠ -ENODEV)
    (hterm : sentinel_terminated arr)
    (hrep : matching arr true ≠ []) (hrepmax : (matching arr true).length ≤ MAX_NBUTTONS)
    (hnorep : matching arr false ≠ []) (hnorepmax : (matching arr false).length ≤ MAX_NBUTTONS) :
    ∃ w1, surfacebook2_button_add arr env w = some (e, w1) ∧
      released w1.trace = released w.trace ++ [.ptr w.next_pd] ∧
      w1.registered = w.registered.filter (fun d => d.1 != w.next_pd) ∧
      w1.drvdata = some { children := [some (.ptr w.next_pd), none] } :=
  add_two_groups_second_refused arr env w e hgate hpriv h0 h1 he hrange hne hterm hrep hrepmax
    hnorep hnorepmax

theorem add_rolls_back_first_child_witness :
    service_error ((env_second_refused (-ENOMEM)).create 1) = some (-ENOMEM) ∧
    ∃ w1, surfacebook2_button_add surfacebook2_button_arr (env_second_refused (-ENOMEM))
        fresh_world = some (-ENOMEM, w1) ∧
      released w1.trace = released fresh_world.trace ++ [.ptr fresh_world.next_pd] ∧
      w1.registered = fresh_world.registered.filter (fun d => d.1 != fresh_world.next_pd) ∧
      w1.drvdata = some { children := [some (.ptr fresh_world.next_pd), none] } :=
  ⟨by decide, add_rolls_back_first_child surfacebook2_button_arr (env_second_refused (-ENOMEM))
    fresh_world (-ENOMEM) (by decide) rfl ⟨rfl, rfl, rfl, rfl⟩ rfl (by decide) (by decide)
    (by decide) (by decide) (by decide) (by decide) (by decide) (by decide)⟩

/-- C3: for a device whose bus identifier does not begin with "VGBI", add
returns `-ENODEV` and leaves the world as it found it: no child is created and
no collaborator is called, whatever the identity query would have answered. -/
theorem add_rejects_foreign_bid (arr : List surfacebook2_button_info) (env : Env) (w : World)
    (hbid : ¬ SURFACEBOOK2_BUTTON_OBJ_NAME <+: env.bid) :
    strlen SURFACEBOOK2_BUTTON_OBJ_NAME = 4 ∧
    surfacebook2_button_add arr env w = some (-ENODEV, w) := by
  have h1 : strncmp env.bid SURFACEBOOK2_BUTTON_OBJ_NAME
      (strlen SURFACEBOOK2_BUTTON_OBJ_NAME) ≠ 0 := fun h0 => hbid ((gate_strncmp env).mp h0)
  refine ⟨by decide, ?_⟩
  unfold surfacebook2_button_add
  simp [h1]

theorem add_rejects_foreign_bid_witness :
    (¬ SURFACEBOOK2_BUTTON_OBJ_NAME <+: env_other_bid.bid) ∧
    strlen SURFACEBOOK2_BUTTON_OBJ_NAME = 4 ∧
    surfacebook2_button_add surfacebook2_button_arr env_other_bid fresh_world =
      some (-ENODEV, fresh_world) :=
  ⟨by decide, add_rejects_foreign_bid surfacebook2_button_arr env_other_bid fresh_world
    (by decide)⟩

/-- C4: for a device whose bus identifier begins with "VGBI" but whose identity
query does not yield the integer 0x05, add returns `-ENODEV` and creates no
child, its only call being the query; a missing or non-integer result is seen
by add as `-EINVAL` converted to `u64`. -/
theorem add_rejects_foreign_identity (arr : List surfacebook2_button_info) (env : Env)
    (w : World) (hbid : SURFACEBOOK2_BUTTON_OBJ_NAME <+: env.bid)
    (hid : ∀ obj, env.dsm = some obj → obj.type = ACPI_TYPE_INTEGER →
      obj.integer_value % 2 ^ 64 ≠ SURFACEBOOK2_BUTTON_DSM_RET_ID) :
    surfacebook2_button_add arr env w = some (-ENODEV, log .acpi_evaluate_dsm w) ∧
    (log .acpi_evaluate_dsm w).registered = w.registered ∧
    ((env.dsm = none ∨ ∃ obj, env.dsm = some obj ∧ obj.type ≠ ACPI_TYPE_INTEGER) →
      (surfacebook2_button_get_id env w).1 = u64_of_int (-EINVAL) ∧
      u64_of_int (-EINVAL) = 2 ^ 64 - 22) := by
  have h1 := (gate_strncmp env).mpr hbid
  have hnone : (env.dsm = none ∨ ∃ obj, env.dsm = some obj ∧ obj.type ≠ ACPI_TYPE_INTEGER) →
      dsm_integer env = none := by
    rintro (h | ⟨obj, h, ht⟩)
    · simp [dsm_integer, h]
    · simp [dsm_integer, h, ht]
  have h2 : (dsm_integer env).getD (u64_of_int (-EINVAL)) ≠ SURFACEBOOK2_BUTTON_DSM_RET_ID := by
    cases hd : dsm_integer env with
    | none => rw [Option.getD_none, u64_einval]; decide
    | some v =>
      rw [Option.getD_some]
      unfold dsm_integer at hd
      cases hdsm : env.dsm with
      | none => simp [hdsm] at hd
      | some obj =>
        by_cases ht : obj.type = ACPI_TYPE_INTEGER
        · simp only [hdsm, ht, if_true, Option.some.injEq] at hd
          rw [← hd]
          exact hid obj hdsm ht
        · simp [hdsm, ht] at hd
  refine ⟨?_, rfl, ?_⟩
  · unfold surfacebook2_button_add
    simp only [h1, ne_eq, not_true_eq_false, if_false, get_id_fst, get_id_snd, h2,
      not_false_eq_true, if_true]
  · intro h
    rw [get_id_fst, hnone h, Option.getD_none]
    exact ⟨rfl, u64_einval⟩

theorem add_rejects_foreign_identity_witness :
    SURFACEBOOK2_BUTTON_OBJ_NAME <+: env_no_dsm.bid ∧
    surfacebook2_button_add surfacebook2_button_arr env_no_dsm fresh_world =
      some (-ENODEV, log .acpi_evaluate_dsm fresh_world) ∧
    (log .acpi_evaluate_dsm fresh_world).registered = fresh_world.registered ∧
    ((env_no_dsm.dsm = none ∨
        ∃ obj, env_no_dsm.dsm = some obj ∧ obj.type ≠ ACPI_TYPE_INTEGER) →
      (surfacebook2_button_get_id env_no_dsm fresh_world).1 = u64_of_int (-EINVAL) ∧
      u64_of_int (-EINVAL) = 2 ^ 64 - 22) :=
  ⟨by decide, add_rejects_foreign_identity surfacebook2_button_arr env_no_dsm fresh_world
    (by decide) (fun obj h => by simp [env_no_dsm] at h)⟩

/-- C5 fails as stated: after a successful add on the driver's table, slot 0
holds the child whose configuration repeats and slot 1 the child whose
configuration does not, and the repeating configuration is handed to the
service first. -/
theorem add_group_order_counterexample :
    (surfacebook2_button_add surfacebook2_button_arr sample_env fresh_world).map
        (fun r => (r.2.drvdata, r.2.registered.map (fun d => (d.1, d.2.rep)),
          (handed r.2.trace).map (fun c => c.rep))) =
      some (some { children := [some (.ptr 1), some (.ptr 2)] }, [(1, true), (2, false)],
        [true, false]) := by
  decide

/-- C5, amended: after the identity gate passes, add builds the autorepeat
group first and the non-autorepeat group second, and stores the children so
that slot 0 holds the repeating group's child and slot 1 the non-repeating
group's child (the selector at loop index i is true for i = 0 and false for
i = 1). -/
theorem add_builds_repeating_group_first (arr : List surfacebook2_button_info) (env : Env)
    (w : World)
    (hgate : identity_gate env) (hpriv : env.priv_alloc_ok = true)
    (h0 : create_succeeds (env.create 0)) (h1 : create_succeeds (env.create 1))
    (hterm : sentinel_terminated arr)
    (hrep : matching arr true ≠ []) (hrepmax : (matching arr true).length ≤ MAX_NBUTTONS)
    (hnorep : matching arr false ≠ []) (hnorepmax : (matching arr false).length ≤ MAX_NBUTTONS) :
    ∃ w1, surfacebook2_button_add arr env w = some (AE_OK, w1) ∧
      w1.drvdata =
        some { children := [some (.ptr w.next_pd), some (.ptr (w.next_pd + 1))] } ∧
      w1.registered = w.registered ++
        [(w.next_pd, group_pdata arr true), (w.next_pd + 1, group_pdata arr false)] ∧
      handed w1.trace = handed w.trace ++ [group_pdata arr true, group_pdata arr false] ∧
      (group_pdata arr true).rep = true ∧ (group_pdata arr false).rep = false := by
  refine ⟨_, add_two_groups arr env w hgate hpriv h0 h1 hterm hrep hrepmax hnorep hnorepmax,
    rfl, rfl, ?_, rfl, rfl⟩
  simp [handed, List.filterMap_append]

theorem add_builds_repeating_group_first_witness :
    identity_gate sample_env ∧
    ∃ w1, surfacebook2_button_add surfacebook2_button_arr sample_env fresh_world =
        some (AE_OK, w1) ∧
      w1.drvdata =
        some { children :=
          [some (.ptr fresh_world.next_pd), some (.ptr (fresh_world.next_pd + 1))] } ∧
      w1.registered = fresh_world.registered ++
        [(fresh_world.next_pd, group_pdata surfacebook2_button_arr true),
         (fresh_world.next_pd + 1, group_pdata surfacebook2_button_arr false)] ∧
      handed w1.trace = handed fresh_world.trace ++
        [group_pdata surfacebook2_button_arr true, group_pdata surfacebook2_button_arr false] ∧
      (group_pdata surfacebook2_button_arr true).rep = true ∧
      (group_pdata surfacebook2_button_arr false).rep = false :=
  ⟨by decide, add_builds_repeating_group_first surfacebook2_button_arr sample_env fresh_world
    (by decide) rfl ⟨rfl, rfl, rfl, rfl⟩ ⟨rfl, rfl, rfl, rfl⟩ (by decide) (by decide)
    (by decide) (by decide) (by decide)⟩

/-- C6: for a sentinel-terminated table with at least one button, at most
`MAX_NBUTTONS` buttons and only non-repeating ones, with the identity gate
passing and every allocation and service call succeeding, the build of the
repeating group returns `-ENODEV` and leaves the world untouched, and add
returns success with exactly one child registered and retained, that of the
non-repeating group, which holds every button of the table. -/
theorem add_only_non_repeating (arr : List surfacebook2_button_info) (env : Env) (w : World)
    (hterm : sentinel_terminated arr) (hsome : catalog arr ≠ [])
    (hall : ∀ e ∈ catalog arr, e.autorepeat = false)
    (hmax : (catalog arr).length ≤ MAX_NBUTTONS)
    (hgate : identity_gate env) (hpriv : env.priv_alloc_ok = true)
    (hsvc : ∀ i, create_succeeds (env.create i)) :
    (∀ i v, surfacebook2_button_device_create (env.create i) arr true v =
      some (.err_ptr (-ENODEV), v)) ∧
    ∃ w1, surfacebook2_button_add arr env w = some (AE_OK, w1) ∧
      w1.drvdata = some { children := [none, some (.ptr w.next_pd)] } ∧
      w1.registered = w.registered ++ [(w.next_pd, group_pdata arr false)] ∧
      (group_pdata arr false).rep = false ∧
      (group_pdata arr false).buttons.take (group_pdata arr false).nbuttons =
        (catalog arr).map to_button := by
  obtain ⟨hrep, hnorep⟩ := matching_of_all_non_repeating arr hall
  refine ⟨fun i v => create_absent _ arr true v (hsvc i).1 hterm hrep,
    _, add_one_group arr env w hgate hpriv (hsvc 0).1 (hsvc 1) hterm hrep
      (by rw [hnorep]; exact hsome) (by rw [hnorep]; exact hmax), rfl, rfl, rfl, ?_⟩
  simp [group_pdata, hnorep]

theorem add_only_non_repeating_witness :
    (sentinel_terminated power_only_arr ∧ catalog power_only_arr ≠ []) ∧
    (∀ i v, surfacebook2_button_device_create (sample_env.create i) power_only_arr true v =
      some (.err_ptr (-ENODEV), v)) ∧
    ∃ w1, surfacebook2_button_add power_only_arr sample_env fresh_world = some (AE_OK, w1) ∧
      w1.drvdata = some { children := [none, some (.ptr fresh_world.next_pd)] } ∧
      w1.registered = fresh_world.registered ++
        [(fresh_world.next_pd, group_pdata power_only_arr false)] ∧
      (group_pdata power_only_arr false).rep = false ∧
      (group_pdata power_only_arr false).buttons.take
          (group_pdata power_only_arr false).nbuttons =
        (catalog power_only_arr).map to_button :=
  ⟨by decide, add_only_non_repeating power_only_arr sample_env fresh_world (by decide)
    (by decide) (by decide) (by decide) (by decide) rfl (fun _ => ⟨rfl, rfl, rfl, rfl⟩)⟩

/-- C7 fails as stated: after a successful add on the driver's table, the first
remove releases children 1 and 2 and the second remove releases both of them
again. -/
theorem remove_twice_counterexample :
    (((surfacebook2_button_add surfacebook2_button_arr sample_env fresh_world).bind
        (fun r => surfacebook2_button_remove r.2)).bind
        (fun r => surfacebook2_button_remove r.2)).map (fun r => released r.2.trace) =
      some [.ptr 1, .ptr 2, .ptr 1, .ptr 2] := by
  decide

/-- C7, amended: in every state reached by a successful add, remove returns
success after releasing each populated child once, in slot order, and leaves
the slots as they were; a second remove finds the same slots populated and
releases the same children once more. -/
theorem remove_twice_releases_twice (arr : List surfacebook2_button_info) (env : Env)
    (w0 w : World) (hadd : surfacebook2_button_add arr env w0 = some (AE_OK, w)) :
    ∃ priv w1 w2, w.drvdata = some priv ∧
      (priv.children.take BUTTON_TYPES).filterMap id ≠ [] ∧
      surfacebook2_button_remove w = some (AE_OK, w1) ∧
      released w1.trace = released w.trace ++ (priv.children.take BUTTON_TYPES).filterMap id ∧
      w1.drvdata = w.drvdata ∧
      surfacebook2_button_remove w1 = some (AE_OK, w2) ∧
      released w2.trace =
        released w1.trace ++ (priv.children.take BUTTON_TYPES).filterMap id := by
  obtain ⟨c0, c1, rest, hd, hne⟩ := add_success_shape arr env w0 w hadd
  obtain ⟨w1, hr1, hd1, ht1, _, _⟩ := remove_two_slots w c0 c1 rest hd
  obtain ⟨w2, hr2, _, ht2, _, _⟩ := remove_two_slots w1 c0 c1 rest (hd1.trans hd)
  refine ⟨_, w1, w2, hd, ?_, hr1, ht1, hd1, hr2, ht2⟩
  cases c0 <;> cases c1 <;> simp [BUTTON_TYPES] at hne ⊢

theorem remove_twice_releases_twice_witness :
    surfacebook2_button_add power_only_arr sample_env fresh_world = some (AE_OK, bound_world) ∧
    ∃ priv w1 w2, bound_world.drvdata = some priv ∧
      (priv.children.take BUTTON_TYPES).filterMap id ≠ [] ∧
      surfacebook2_button_remove bound_world = some (AE_OK, w1) ∧
      released w1.trace =
        released bound_world.trace ++ (priv.children.take BUTTON_TYPES).filterMap id ∧
      w1.drvdata = bound_world.drvdata ∧
      surfacebook2_button_remove w1 = some (AE_OK, w2) ∧
      released w2.trace =
        released w1.trace ++ (priv.children.take BUTTON_TYPES).filterMap id :=
  ⟨by decide, remove_twice_releases_twice power_only_arr sample_env fresh_world bound_world
    (by decide)⟩

/-- C8 fails as stated: on a controller on which add was never called, and on
one that add rejected at the identity gate, remove dereferences the absent
private data; and after add has rolled back, a further remove releases the
first child a second time. -/
theorem remove_unbound_counterexample :
    surfacebook2_button_remove fresh_world = none ∧
    (surfacebook2_button_add surfacebook2_button_arr env_other_bid fresh_world).bind
        (fun r => surfacebook2_button_remove r.2) = none ∧
    ((surfacebook2_button_add surfacebook2_button_arr (env_second_refused (-ENOMEM))
        fresh_world).bind (fun r => surfacebook2_button_remove r.2)).map
        (fun r => released r.2.trace) = some [.ptr 1, .ptr 1] := by
  decide

/-- C8, amended: on a controller for which add passed the identity gate,
attached its private data and then failed with no child left in its slots,
remove is a no-op that returns success: it releases nothing and leaves the
state as it found it. That is the case when add returned `-ENODEV` for want of
any button, and when add aborted on a group error and its rollback released
nothing (the failing group was the first one built, or the group before it was
absent). On a controller with no private data attached, remove dereferences the
absent data and returns nothing. -/
theorem remove_after_failed_add (arr : List surfacebook2_button_info) (env : Env)
    (w w1 : World) (code : Int) (hgate : identity_gate env)
    (hadd : surfacebook2_button_add arr env w = some (code, w1))
    (hcase : code = -ENODEV ∨
      (env.priv_alloc_ok = true ∧ code ≠ AE_OK ∧ released w1.trace = released w.trace)) :
    surfacebook2_button_remove w1 = some (AE_OK, w1) ∧
    ∀ v : World, v.drvdata = none → surfacebook2_button_remove v = none := by
  have hshape : ∃ rest, w1.drvdata = some { children := none :: none :: rest } := by
    rcases hcase with hc | ⟨hpriv, hfail, hrel⟩
    · subst hc
      exact add_no_buttons_shape arr env w w1 hgate hadd
    · exact add_abort_shape arr env w w1 code hgate hpriv hadd hfail hrel
  obtain ⟨rest, hd⟩ := hshape
  obtain ⟨v, hr, _, _, _, hsame⟩ := remove_two_slots w1 none none rest hd
  constructor
  · rw [hr, hsame rfl rfl]
  · intro v hv
    simp [surfacebook2_button_remove, hv]

theorem remove_after_failed_add_witness :
    ((identity_gate sample_env ∧
        surfacebook2_button_add empty_arr sample_env fresh_world =
          some (-ENODEV, no_buttons_world)) ∧
      surfacebook2_button_remove no_buttons_world = some (AE_OK, no_buttons_world) ∧
      ∀ v : World, v.drvdata = none → surfacebook2_button_remove v = none) ∧
    ((surfacebook2_button_add surfacebook2_button_arr (env_first_refused (-ENOMEM))
          fresh_world = some (-ENOMEM, first_abort_world) ∧
        released first_abort_world.trace = released fresh_world.trace) ∧
      surfacebook2_button_remove first_abort_world = some (AE_OK, first_abort_world) ∧
      ∀ v : World, v.drvdata = none → surfacebook2_button_remove v = none) ∧
    ((surfacebook2_button_add power_only_arr (env_second_refused (-ENOMEM))
          fresh_world = some (-ENOMEM, second_abort_world) ∧
        released second_abort_world.trace = released fresh_world.trace) ∧
      surfacebook2_button_remove second_abort_world = some (AE_OK, second_abort_world) ∧
      ∀ v : World, v.drvdata = none → surfacebook2_button_remove v = none) :=
  ⟨⟨by decide, remove_after_failed_add empty_arr sample_env fresh_world no_buttons_world
      (-ENODEV) (by decide) (by decide) (Or.inl rfl)⟩,
    ⟨by decide, remove_after_failed_add surfacebook2_button_arr (env_first_refused (-ENOMEM))
      fresh_world first_abort_world (-ENOMEM) (by decide) (by decide)
      (Or.inr ⟨rfl, by decide, by decide⟩)⟩,
    ⟨by decide, remove_after_failed_add power_only_arr (env_second_refused (-ENOMEM))
      fresh_world second_abort_world (-ENOMEM) (by decide) (by decide)
      (Or.inr ⟨rfl, by decide, by decide⟩)⟩⟩

/-- C9: for a sentinel-terminated table and a selector with between 1 and
`MAX_NBUTTONS` matching entries, and with both allocations succeeding, create
hands exactly one configuration to the service: its first `nbuttons` records
are the matching catalog entries in catalog order, each mapped field by field
with a debounce interval of 1, `nbuttons` is their number and `rep` is the
selector. -/
theorem create_hands_filtered_configuration (r : CreateEnv)
    (arr : List surfacebook2_button_info) (sel : Bool) (w : World)
    (hterm : sentinel_terminated arr)
    (hmin : 1 ≤ (matching arr sel).length) (hmax : (matching arr sel).length ≤ MAX_NBUTTONS)
    (hk : r.kzalloc_ok = true) (ha : r.pdev_alloc_ok = true) :
    ∃ res w1 pdata, surfacebook2_button_device_create r arr sel w = some (res, w1) ∧
      handed w1.trace = handed w.trace ++ [pdata] ∧
      pdata.buttons.take pdata.nbuttons =
        ((catalog arr).filter (fun e => e.autorepeat == sel)).map (fun e =>
          { type := e.event_type, code := e.event_code, gpio := e.gpio,
            active_low := e.active_low, wakeup := e.wakeup, desc := e.name,
            debounce_interval := 1 }) ∧
      pdata.nbuttons = ((catalog arr).filter (fun e => e.autorepeat == sel)).length ∧
      pdata.rep = sel := by
  have hsome : matching arr sel ≠ [] := by
    intro h; rw [h] at hmin; simp at hmin
  obtain ⟨res, w1, hc, hh⟩ := create_hands r arr sel w hk ha hterm hsome hmax
  refine ⟨res, w1, group_pdata arr sel, hc, hh, ?_, rfl, rfl⟩
  have : (group_pdata arr sel).buttons.take (group_pdata arr sel).nbuttons =
      (matching arr sel).map to_button := by
    simp [group_pdata]
  rw [this]
  rfl

theorem create_hands_filtered_configuration_witness :
    sentinel_terminated surfacebook2_button_arr ∧
    ∃ res w1 pdata,
      surfacebook2_button_device_create ⟨true, true, 0, 0⟩ surfacebook2_button_arr true
        fresh_world = some (res, w1) ∧
      handed w1.trace = handed fresh_world.trace ++ [pdata] ∧
      pdata.buttons.take pdata.nbuttons =
        ((catalog surfacebook2_button_arr).filter (fun e => e.autorepeat == true)).map
          (fun e =>
            { type := e.event_type, code := e.event_code, gpio := e.gpio,
              active_low := e.active_low, wakeup := e.wakeup, desc := e.name,
              debounce_interval := 1 }) ∧
      pdata.nbuttons =
        ((catalog surfacebook2_button_arr).filter (fun e => e.autorepeat == true)).length ∧
      pdata.rep = true :=
  ⟨by decide, create_hands_filtered_configuration ⟨true, true, 0, 0⟩ surfacebook2_button_arr
    true fresh_world (by decide) (by decide) (by decide) rfl rfl⟩

end Surfacebook2Button
